import Mathlib

/-!
Shallow embedding of the request dispatcher and router of
src/pkg/framework/aggregation_server.go, together with theorems settling
the frozen claims about it.  Go panics and fallible library calls are
modeled with Except and Option; machine integers are Int with the 64-bit
range checked where the source checks it.
-/

namespace AggregationModel

/-- Model of Go strconv.ParseInt(s, 10, 64) as used at lines 392 and 508:
an optional sign followed by at least one decimal digit, value within the
signed 64-bit range; every other input (empty, stray characters, overflow)
is an error, modeled as none. -/
def parseInt64 (s : String) : Option Int :=
  match s.data with
  | [] => none
  | c0 :: rest0 =>
    let signDigits : Bool × List Char :=
      if c0 = '-' then (true, rest0)
      else if c0 = '+' then (false, rest0)
      else (false, c0 :: rest0)
    if signDigits.2 = [] then none
    else if signDigits.2.all (fun c => c.isDigit) then
      let n : Nat := signDigits.2.foldl (fun acc c => acc * 10 + (c.toNat - 48)) 0
      let v : Int := if signDigits.1 then - (n : Int) else (n : Int)
      if v < - (2 ^ 63) ∨ 2 ^ 63 - 1 < v then none else some v
    else none

/-- ASCII lowercasing of one character. -/
def asciiLower (c : Char) : Char :=
  if 'A' ≤ c ∧ c ≤ 'Z' then Char.ofNat (c.toNat + 32) else c

/-- Go strings.EqualFold as used on ASCII query values (watch,
allowWatchBookmarks, sendInitialEvents, compared against true):
case-insensitive equality, modeled by ASCII case folding. -/
def equalFold (a b : String) : Bool :=
  a.data.map asciiLower = b.data.map asciiLower

/-- Lines 506-511: the effective List limit.  It starts at the default 500
and is replaced only when the raw query value is non-empty, parses as an
integer, and lies in (0, 1000]; every other value keeps the default. -/
def effectiveLimit (rawLimit : String) : Int :=
  if rawLimit = "" then 500
  else
    match parseInt64 rawLimit with
    | some l => if 0 < l ∧ l ≤ 1000 then l else 500
    | none => 500

/-- The resourceVersionMatch enum (metav1.ResourceVersionMatch values used
by the dispatcher). -/
inductive RVMatch
  | exact
  | notOlderThan
deriving DecidableEq, Repr

/-- Lines 372-378 (and identically 542-548): resourceVersionMatch defaults
to NotOlderThan; only the exact strings Exact and NotOlderThan select a
value, anything else keeps the default. -/
def resolveRVMatch (raw : String) : RVMatch :=
  if raw = "Exact" then RVMatch.exact
  else if raw = "NotOlderThan" then RVMatch.notOlderThan
  else RVMatch.notOlderThan

/-- Lines 380-383: sendInitialEvents defaults to (resourceVersion empty or
zero) and is overridden by an explicitly supplied query value, compared
case-insensitively against true. -/
def effectiveSendInitial (rv sip : String) : Bool :=
  if sip ≠ "" then equalFold sip "true"
  else rv = "" || rv = "0"

/-- Lines 390-395: timeoutSeconds defaults to 60, overridden only by a
value that parses as a positive integer. -/
def effectiveTimeoutSec (raw : String) : Int :=
  if raw = "" then 60
  else
    match parseInt64 raw with
    | some v => if 0 < v then v else 60
    | none => 60

/-- Lines 397-400: the field selector sent to the backing watch; a
non-empty path name forcibly replaces the user-supplied query value with
an exact metadata.name match. -/
def watchFieldSelector (nm fsRaw : String) : String :=
  if nm ≠ "" then "metadata.name=" ++ nm else fsRaw

/-- The raw query parameters handleResourceFunc reads from the request
URL. -/
structure RequestQuery where
  watchRaw : String
  limitRaw : String
  continueRaw : String
  labelSelectorRaw : String
  fieldSelectorRaw : String
  resourceVersionRaw : String
  resourceVersionMatchRaw : String
  allowWatchBookmarksRaw : String
  sendInitialEventsRaw : String
  timeoutSecondsRaw : String
deriving DecidableEq, Repr

/-- The client.ListOptions built for the backing List call (lines
513-548).  The parsed label and field selectors are kept as their source
text; parse success or failure is supplied by the library parser
predicates. -/
structure GoListOptions where
  nspace : String
  limit : Int
  continueToken : String
  labelSel : Option String
  fieldSel : Option String
  rawResourceVersion : String
  rawRVMatch : RVMatch
deriving DecidableEq, Repr

/-- Lines 506-548: building the backing List options.  labelOk and fieldOk
model the k8s library parsers labels.Parse and fields.ParseSelector: true
when the selector text parses.  A non-empty selector that fails to parse
is a 400; the limit never produces an error. -/
def buildListOptions (labelOk fieldOk : String → Bool) (ns : String)
    (q : RequestQuery) : Except (Nat × String) GoListOptions :=
  if q.labelSelectorRaw ≠ "" ∧ labelOk q.labelSelectorRaw = false then
    Except.error (400, "failed to parse labelSelector")
  else if q.fieldSelectorRaw ≠ "" ∧ fieldOk q.fieldSelectorRaw = false then
    Except.error (400, "failed to parse fieldSelector")
  else
    Except.ok
      { nspace := ns,
        limit := effectiveLimit q.limitRaw,
        continueToken := q.continueRaw,
        labelSel := if q.labelSelectorRaw = "" then none else some q.labelSelectorRaw,
        fieldSel := if q.fieldSelectorRaw = "" then none else some q.fieldSelectorRaw,
        rawResourceVersion := q.resourceVersionRaw,
        rawRVMatch := resolveRVMatch q.resourceVersionMatchRaw }

/-- The ListOptions handed to the backing dynamic Watch call (lines
402-411). -/
structure WatchListOptions where
  resourceVersion : String
  resourceVersionMatch : RVMatch
  timeoutSeconds : Int
  sendInitialEvents : Bool
  watch : Bool
  allowWatchBookmarks : Bool
  labelSelector : String
  fieldSelector : String
deriving DecidableEq, Repr

/-- Lines 358-411: the watch-branch negotiation.  The flush-capability
check (lines 359-363) comes first and fails with 500; the
sendInitialEvents invariant (lines 385-388) fails with 400; otherwise the
negotiated backing watch options are produced. -/
def watchNegotiate (flushSupported : Bool) (q : RequestQuery) (nm : String) :
    Except (Nat × String) WatchListOptions :=
  if flushSupported = false then
    Except.error (500, "streaming not supported by server")
  else if effectiveSendInitial q.resourceVersionRaw q.sendInitialEventsRaw = true ∧
      resolveRVMatch q.resourceVersionMatchRaw ≠ RVMatch.notOlderThan then
    Except.error (400, "sendInitialEvents requires resourceVersionMatch=NotOlderThan")
  else
    Except.ok
      { resourceVersion := q.resourceVersionRaw,
        resourceVersionMatch := resolveRVMatch q.resourceVersionMatchRaw,
        timeoutSeconds := effectiveTimeoutSec q.timeoutSecondsRaw,
        sendInitialEvents := effectiveSendInitial q.resourceVersionRaw q.sendInitialEventsRaw,
        watch := true,
        allowWatchBookmarks := equalFold q.allowWatchBookmarksRaw "true",
        labelSelector := q.labelSelectorRaw,
        fieldSelector := watchFieldSelector nm q.fieldSelectorRaw }

/-- The watch event types of k8s.io/apimachinery/pkg/watch used by the
loop. -/
inductive EventType
  | added
  | modified
  | deleted
  | bookmark
  | error
deriving DecidableEq, Repr

/-- What the dispatcher can observe of a backing event object: a
metav1.Status (carrying code and message), an unstructured.Unstructured,
or some other runtime.Object.  The gvkStamped flag records whether
SetGroupVersionKind ran on it; ident keeps distinct payloads distinct. -/
inductive ObjShape
  | statusShape (code : Nat) (msg : String)
  | unstructuredShape
  | otherShape
deriving DecidableEq, Repr

structure EventObject where
  shape : ObjShape
  ident : Nat
  gvkStamped : Bool
deriving DecidableEq, Repr

/-- Line 458: event.Object.GetObjectKind().SetGroupVersionKind(newKind). -/
def stampKind (o : EventObject) : EventObject :=
  { o with gvkStamped := true }

/-- A backing watch.Event: its type and its (possibly nil) object. -/
structure BackingEvent where
  type : EventType
  object : Option EventObject
deriving DecidableEq, Repr

/-- The winner of one round of the select at lines 426-430: the request
context finishing, the result channel closing, or the channel delivering
an event. -/
inductive LoopInput
  | cancel
  | chanClosed
  | ev (e : BackingEvent)
deriving DecidableEq, Repr

/-- One JSON document written to the watch stream.  typeKey and objectKey
record the JSON member names the Go encoder produces for the struct being
encoded: the local watchEvent type (lines 26-29) carries tags type and
object, while watch.Event of apimachinery has no tags and therefore
encodes with its Go field names Type and Object. -/
structure EncodedEvent where
  typeKey : String
  objectKey : String
  eventType : EventType
  payload : Option EventObject
deriving DecidableEq, Repr

/-- The static data of one streaming session: the allowWatchBookmarks
flag, the optional watch-transform hook (already applied to its namespace
and name arguments), and which documents the JSON encoder fails on. -/
structure StreamConfig where
  allowBookmarks : Bool
  callback : Option (EventObject → Except String EventObject)
  encodeFails : EncodedEvent → Bool

/-- The observable outcome of a streaming session: the documents written
(each flushed right after encoding), the trailing http.Error write if any,
how many times watcher.Stop() was called, and whether the loop returned
(terminated = false means the trace ended with the loop still waiting). -/
structure StreamResult where
  written : List EncodedEvent
  httpErr : Option (Nat × String)
  stops : Nat
  terminated : Bool
deriving DecidableEq, Repr

/-- Lines 425-485: the streaming select loop, one LoopInput per round.
Context cancellation stops the watcher and returns; a closed channel
returns; an Error event writes an http error from the embedded status and
returns; a Bookmark is encoded raw (the unwrapped watch.Event) and flushed
when allowed, else discarded; a nil object is discarded; otherwise the
object is kind-stamped, must cast to unstructured, is passed through the
hook when present, and the tagged watchEvent wrapper is encoded and
flushed.  Every failure path returns without stopping the watcher. -/
def streamLoop (cfg : StreamConfig) : List LoopInput → StreamResult
  | [] => { written := [], httpErr := none, stops := 0, terminated := false }
  | LoopInput.cancel :: _ =>
    { written := [], httpErr := none, stops := 1, terminated := true }
  | LoopInput.chanClosed :: _ =>
    { written := [], httpErr := none, stops := 0, terminated := true }
  | LoopInput.ev e :: rest =>
    if e.type = EventType.error then
      match e.object with
      | some o =>
        match o.shape with
        | ObjShape.statusShape c m =>
          { written := [], httpErr := some (c, "watch error: " ++ m),
            stops := 0, terminated := true }
        | _ =>
          { written := [], httpErr := some (500, "watch error: unknown"),
            stops := 0, terminated := true }
      | none =>
        { written := [], httpErr := some (500, "watch error: unknown"),
          stops := 0, terminated := true }
    else if e.type = EventType.bookmark then
      if cfg.allowBookmarks then
        let doc : EncodedEvent :=
          { typeKey := "Type", objectKey := "Object",
            eventType := e.type, payload := e.object }
        if cfg.encodeFails doc then
          { written := [], httpErr := some (500, "failed to send bookmark"),
            stops := 0, terminated := true }
        else
          let r := streamLoop cfg rest
          { written := doc :: r.written, httpErr := r.httpErr,
            stops := r.stops, terminated := r.terminated }
      else streamLoop cfg rest
    else
      match e.object with
      | none => streamLoop cfg rest
      | some obj =>
        let stamped := stampKind obj
        if stamped.shape ≠ ObjShape.unstructuredShape then
          { written := [], httpErr := some (500, "failed to cast to unstructured"),
            stops := 0, terminated := true }
        else
          match cfg.callback with
          | some cb =>
            match cb stamped with
            | Except.error m =>
              { written := [], httpErr := some (500, "watch error: " ++ m),
                stops := 0, terminated := true }
            | Except.ok res =>
              let doc : EncodedEvent :=
                { typeKey := "type", objectKey := "object",
                  eventType := e.type, payload := some res }
              if cfg.encodeFails doc then
                { written := [], httpErr := some (500, "failed to encode watch response"),
                  stops := 0, terminated := true }
              else
                let r := streamLoop cfg rest
                { written := doc :: r.written, httpErr := r.httpErr,
                  stops := r.stops, terminated := r.terminated }
          | none =>
            let doc : EncodedEvent :=
              { typeKey := "type", objectKey := "object",
                eventType := e.type, payload := some stamped }
            if cfg.encodeFails doc then
              { written := [], httpErr := some (500, "failed to encode watch response"),
                stops := 0, terminated := true }
            else
              let r := streamLoop cfg rest
              { written := doc :: r.written, httpErr := r.httpErr,
                stops := r.stops, terminated := r.terminated }

/-- What the backing dynamic Watch call can do (lines 413-423): fail with
a Gone status, fail otherwise, or open a subscription that will deliver
the given sequence of select-round winners. -/
inductive BackingWatchResult
  | goneErr (msg : String)
  | openFailure (msg : String)
  | openedWith (inputs : List LoopInput)

/-- The outcome of the whole watch branch: an http error before streaming
began, or a completed streaming session. -/
inductive WatchOutcome
  | preError (code : Nat) (msg : String)
  | streamed (r : StreamResult)
deriving DecidableEq

/-- Lines 358-485: the watch branch end to end.  Negotiation, then the
backing watch open (Gone goes to 410, other failures to 500), then the
streaming loop. -/
def watchPath (flushSupported : Bool) (ns nm : String) (q : RequestQuery)
    (watchCb : Option (String → String → EventObject → Except String EventObject))
    (encodeFails : EncodedEvent → Bool)
    (backing : WatchListOptions → BackingWatchResult) : WatchOutcome :=
  match watchNegotiate flushSupported q nm with
  | Except.error (c, m) => WatchOutcome.preError c m
  | Except.ok opts =>
    match backing opts with
    | BackingWatchResult.goneErr m => WatchOutcome.preError 410 m
    | BackingWatchResult.openFailure m =>
      WatchOutcome.preError 500 ("failed to initialize watcher: " ++ m)
    | BackingWatchResult.openedWith inputs =>
      WatchOutcome.streamed (streamLoop
        { allowBookmarks := opts.allowWatchBookmarks,
          callback := watchCb.map (fun f => f ns nm),
          encodeFails := encodeFails } inputs)

/-- The backing operation handleResourceFunc issues for a request (lines
358, 488-560): the watch branch with its negotiated options (or its
pre-stream rejection), a keyed Get for a non-empty name, or a List with
the built options (or its rejection). -/
inductive BackingOp
  | watchOp (opts : WatchListOptions)
  | watchRejected (code : Nat) (msg : String)
  | getOp (ns nm : String)
  | listOp (opts : GoListOptions)
  | listRejected (code : Nat) (msg : String)
deriving DecidableEq, Repr

/-- Lines 358, 488-560: request classification.  watch=true (matched
case-insensitively) enters the watch branch; otherwise a non-empty path
name issues a single-object Get; otherwise the List options are built. -/
def backingOpFor (flushSupported : Bool) (labelOk fieldOk : String → Bool)
    (ns nm : String) (q : RequestQuery) : BackingOp :=
  if equalFold q.watchRaw "true" = true then
    match watchNegotiate flushSupported q nm with
    | Except.error (c, m) => BackingOp.watchRejected c m
    | Except.ok opts => BackingOp.watchOp opts
  else if nm ≠ "" then BackingOp.getOp ns nm
  else
    match buildListOptions labelOk fieldOk ns q with
    | Except.error (c, m) => BackingOp.listRejected c m
    | Except.ok opts => BackingOp.listOp opts

/-- A backing Get failure (lines 491-501): a StatusError carrying an HTTP
code, or some other error.  client.IgnoreNotFound keeps every error except
a NotFound status, which this model identifies by code 404. -/
inductive GetErr
  | statusErr (code : Nat) (msg : String)
  | otherErr (msg : String)
deriving DecidableEq, Repr

def isNotFoundErr : GetErr → Bool
  | GetErr.statusErr c _ => c = 404
  | GetErr.otherErr _ => false

/-- The result of the backing KubeClient.Get call at line 491. -/
inductive GetResult
  | found (resourceVersion : String) (ident : Nat)
  | failed (e : GetErr)
deriving DecidableEq, Repr

/-- Lines 493-501: Get error handling.  IgnoreNotFound leaves a non-nil
error for everything that is not a NotFound, and that goes to 500 with the
backing message; a NotFound goes to the stock 404 page.  There is no Gone
check on this path (unlike the List and Watch branches). -/
def getFailureResponse (e : GetErr) : Nat × String :=
  if isNotFoundErr e then (404, "404 page not found")
  else
    match e with
    | GetErr.statusErr _ m => (500, "failed to get task: " ++ m)
    | GetErr.otherErr m => (500, "failed to get task: " ++ m)

/-- What a list-transform hook can return (its Go type is any): a
runtime.Object from which meta.ExtractList yields the given item idents, a
runtime.Object on which ExtractList fails, or a value that is not a
runtime.Object at all. -/
inductive HookResult
  | objList (items : List Nat)
  | objNonList (ident : Nat)
  | nonObject (ident : Nat)
deriving DecidableEq, Repr

/-- The scalar response payload after the unwrap at lines 591-597: either
element 0 of the extracted items, or the hook result passed through
unchanged when the unwrap does not apply. -/
inductive ScalarOut
  | picked (x : Nat)
  | unchanged (r : HookResult)
deriving DecidableEq, Repr

/-- Lines 591-597: on a named request, a hook result that is a
runtime.Object with a successful ExtractList is replaced by its element 0.
The source reads items[0] with no bounds check, so an empty extracted
slice is an out-of-bounds access (a Go runtime panic), modeled as none. -/
def unwrapScalar (nm : String) (r : HookResult) : Option ScalarOut :=
  if nm = "" then some (ScalarOut.unchanged r)
  else
    match r with
    | HookResult.objList items =>
      match items with
      | x :: _ => some (ScalarOut.picked x)
      | [] => none
    | other => some (ScalarOut.unchanged other)

/-- Lines 502-504 and 581-597 on the single-object success path: the
fetched object is wrapped as the synthetic one-item list (meta.SetList),
the list-transform hook runs on it when registered (hook failure is a 500
with the failed-to-list message), and the result is unwrapped to a scalar.
Kind stamping (lines 564-579) does not change the item identities and
the final JSON encoding (lines 599-602) is outside this function. -/
def singleObjectResult (nm : String) (fetched : Nat)
    (hook : Option (List Nat → Except String HookResult)) :
    Except (Nat × String) (Option ScalarOut) :=
  match hook with
  | none => Except.ok (unwrapScalar nm (HookResult.objList [fetched]))
  | some f =>
    match f [fetched] with
    | Except.error m => Except.error (500, "failed to list tasks: " ++ m)
    | Except.ok res => Except.ok (unwrapScalar nm res)

/-- Lines 488-504 plus 581-597: the whole single-object branch after
classification — the backing Get, its error mapping, then the synthetic
list, hook, and unwrap.  An ok none value records that the unwrap hit the
out-of-bounds items[0] access. -/
def singleObjectPath (nm : String) (res : GetResult)
    (hook : Option (List Nat → Except String HookResult)) :
    Except (Nat × String) (Option ScalarOut) :=
  match res with
  | GetResult.failed e => Except.error (getFailureResponse e)
  | GetResult.found _ x => singleObjectResult nm x hook

/-- The static identity of one APIKind (metav1.APIResource fields the
router reads). -/
structure APIResourceMeta where
  name : String
  namespaced : Bool
deriving DecidableEq, Repr

/-- One APIKind registration record: its identity, the raw endpoint
suffixes (the RawEndpoints map keys), and how many Resources and
CustomResources entries it carries (the handler closures themselves do not
affect routing). -/
structure APIKindReg where
  apiResource : APIResourceMeta
  rawEndpoints : List String
  resourcesCount : Nat
  customResourcesCount : Nat
deriving DecidableEq, Repr

/-- The collection route pattern of an APIKind:
/apis/{group}/{version}/{resource}. -/
def basePattern (g v : String) (ak : APIKindReg) : String :=
  "/apis/" ++ g ++ "/" ++ v ++ "/" ++ ak.apiResource.name

/-- The mux patterns one Resources (or CustomResources) entry registers:
the collection route always, plus the item route with trailing slash for
cluster-scoped kinds (namespaced kinds reach items through the shared
namespaces dispatcher instead, registering nothing extra). -/
def kindBlock (g v : String) (ak : APIKindReg) : List String :=
  if ak.apiResource.namespaced then [basePattern g v ak]
  else [basePattern g v ak, basePattern g v ak ++ "/"]

/-- Route patterns one APIKind registers on the mux, in source order
(lines 137-269): one pattern per raw endpoint, then one block per
Resources entry, then one block per CustomResources entry. -/
def kindPatterns (g v : String) (ak : APIKindReg) : List String :=
  ak.rawEndpoints.map (fun ep => basePattern g v ak ++ ep)
    ++ (List.replicate ak.resourcesCount (kindBlock g v ak)).flatten
    ++ (List.replicate ak.customResourcesCount (kindBlock g v ak)).flatten

/-- Go net/http ServeMux.HandleFunc: registering a pattern that is already
registered panics (http: multiple registrations), modeled as the error
case; otherwise the pattern is added. -/
def muxRegister (mux : List String) (pat : String) : Except String (List String) :=
  if pat ∈ mux then Except.error ("http: multiple registrations for " ++ pat)
  else Except.ok (mux ++ [pat])

def muxRegisterAll (mux : List String) : List String → Except String (List String)
  | [] => Except.ok mux
  | p :: ps =>
    match muxRegister mux p with
    | Except.error e => Except.error e
    | Except.ok m => muxRegisterAll m ps

/-- The accumulating state of the NewServer registration loop: the names
seen so far (the existingApiResources set), the mux pattern table, and
whether any namespaced handler was put into the shared map. -/
structure BuildState where
  seenNames : List String
  mux : List String
  hasNamespacedHandlers : Bool
deriving DecidableEq, Repr

def foldExcept {σ α : Type} (f : σ → α → Except String σ) :
    σ → List α → Except String σ
  | st, [] => Except.ok st
  | st, a :: as =>
    match f st a with
    | Except.error e => Except.error e
    | Except.ok st2 => foldExcept f st2 as

/-- Lines 127-270: processing one APIKind.  A name already seen panics
with the uniqueness message (line 131); otherwise the kind registers its
patterns (any mux duplicate panics inside HandleFunc) and, when namespaced
with at least one Resources or CustomResources entry, marks the shared
namespaced-handler map as non-empty. -/
def registerKind (g v : String) (st : BuildState) (ak : APIKindReg) :
    Except String BuildState :=
  if ak.apiResource.name ∈ st.seenNames then
    Except.error ("APIResource must be unique: " ++ ak.apiResource.name)
  else
    match muxRegisterAll st.mux (kindPatterns g v ak) with
    | Except.error e => Except.error e
    | Except.ok m =>
      Except.ok
        { seenNames := st.seenNames ++ [ak.apiResource.name],
          mux := m,
          hasNamespacedHandlers := st.hasNamespacedHandlers ||
            (ak.apiResource.namespaced &&
              decide (0 < ak.resourcesCount + ak.customResourcesCount)) }

/-- The fixed routes registered before the APIKind loop (lines 94-122). -/
def bootPatterns : List String := ["/healthz", "/readyz", "/apis"]

/-- Lines 84-305: NewServer.  Registers the fixed endpoints, runs the
APIKind loop, then registers the group discovery route and, when the
namespaced-handler map is non-empty, the namespaces dispatcher route.  Go
panics (duplicate name, duplicate mux pattern) are the error case; the ok
value is the final mux pattern table. -/
def NewServer (g v : String) (kinds : List APIKindReg) :
    Except String (List String) :=
  match muxRegisterAll [] bootPatterns with
  | Except.error e => Except.error e
  | Except.ok m0 =>
    match foldExcept (registerKind g v) ⟨[], m0, false⟩ kinds with
    | Except.error e => Except.error e
    | Except.ok st =>
      match muxRegister st.mux ("/apis/" ++ g ++ "/" ++ v) with
      | Except.error e => Except.error e
      | Except.ok m1 =>
        if st.hasNamespacedHandlers then
          match muxRegister m1 ("/apis/" ++ g ++ "/" ++ v ++ "/namespaces/") with
          | Except.error e => Except.error e
          | Except.ok m2 => Except.ok m2
        else Except.ok m1

/-- True exactly when construction aborted (a Go panic in the source). -/
def isConstructionError {ε α : Type} : Except ε α → Bool
  | Except.error _ => true
  | Except.ok _ => false

/-- A streaming session with bookmarks disallowed, no watch-transform
hook, and an encoder that succeeds on every document. -/
def plainStreamCfg : StreamConfig :=
  { allowBookmarks := false, callback := none, encodeFails := fun _ => false }

/-- The same session with allowWatchBookmarks granted. -/
def bookmarkStreamCfg : StreamConfig :=
  { allowBookmarks := true, callback := none, encodeFails := fun _ => false }

/-- A backing Error event carrying a metav1.Status with code 410. -/
def goneErrorEvent : BackingEvent :=
  { type := EventType.error,
    object := some { shape := ObjShape.statusShape 410 "expired", ident := 0,
                     gvkStamped := false } }

/-- A backing Bookmark event carrying an unstructured object. -/
def sampleBookmarkEvent : BackingEvent :=
  { type := EventType.bookmark,
    object := some { shape := ObjShape.unstructuredShape, ident := 7,
                     gvkStamped := false } }

/-- A backing Added event carrying an unstructured object. -/
def sampleAddedEvent : BackingEvent :=
  { type := EventType.added,
    object := some { shape := ObjShape.unstructuredShape, ident := 5,
                     gvkStamped := false } }

/-- Claim C1: the claim requires the backing subscription to be released
exactly once on every termination path of a Streaming session.  The code
releases it only on the context-cancellation path: a session terminated by
a backing Error event (and likewise by channel closure) returns with zero
watcher.Stop calls, while cancellation performs the single release.  This
evaluates the streaming loop at those inputs. -/
theorem c1_stream_release_eval :
    (streamLoop plainStreamCfg [LoopInput.ev goneErrorEvent]).terminated = true ∧
    (streamLoop plainStreamCfg [LoopInput.ev goneErrorEvent]).stops = 0 ∧
    (streamLoop plainStreamCfg [LoopInput.cancel]).stops = 1 ∧
    (streamLoop plainStreamCfg [LoopInput.chanClosed]).terminated = true ∧
    (streamLoop plainStreamCfg [LoopInput.chanClosed]).stops = 0 :=
  ⟨rfl, rfl, rfl, rfl, rfl⟩

/-- Claim C5: a forwarded Bookmark event is written by encoding the raw
backing watch.Event, whose untagged Go fields serialize under the JSON
keys Type and Object — not the tagged watchEvent wrapper with keys type
and object used for Added, Modified and Deleted events.  With bookmarks
disallowed nothing is written; the discard half of the claim holds, the
shape half does not. -/
theorem c5_bookmark_encoding_eval :
    (streamLoop bookmarkStreamCfg [LoopInput.ev sampleBookmarkEvent]).written =
      [{ typeKey := "Type", objectKey := "Object", eventType := EventType.bookmark,
         payload := some { shape := ObjShape.unstructuredShape, ident := 7,
                           gvkStamped := false } }] ∧
    (streamLoop plainStreamCfg [LoopInput.ev sampleBookmarkEvent]).written = [] ∧
    (streamLoop plainStreamCfg [LoopInput.ev sampleAddedEvent]).written =
      [{ typeKey := "type", objectKey := "object", eventType := EventType.added,
         payload := some { shape := ObjShape.unstructuredShape, ident := 5,
                           gvkStamped := true } }] ∧
    ("Type" : String) ≠ "type" :=
  ⟨rfl, rfl, rfl, by decide⟩

/-- Claim C2 counterexample: a backing Get failure whose status code is
410 (stale resourceVersion, Gone) is answered with 500 and the
failed-to-get message, not with 410 — the Get branch has no Gone check. -/
theorem c2_get_gone_counterexample :
    singleObjectPath "bar"
        (GetResult.failed (GetErr.statusErr 410 "too old resource version")) none =
      Except.error (500, "failed to get task: too old resource version") ∧
    (500 : Nat) ≠ 410 :=
  ⟨rfl, by decide⟩

/-- Claim C2 as amended: on the single-object branch a NotFound backing
error yields 404, and every other backing error — a status error of any
other code, 410 included, or a plain error — yields 500 with the backing
message. -/
theorem c2_get_error_mapping (nm m : String) (c : Nat)
    (hook : Option (List Nat → Except String HookResult)) :
    singleObjectPath nm (GetResult.failed (GetErr.statusErr c m)) hook =
      Except.error (if c = 404 then (404, "404 page not found")
                    else (500, "failed to get task: " ++ m)) ∧
    singleObjectPath nm (GetResult.failed (GetErr.otherErr m)) hook =
      Except.error (500, "failed to get task: " ++ m) := by
  constructor
  · by_cases h : c = 404 <;>
      simp [singleObjectPath, getFailureResponse, isNotFoundErr, h]
  · simp [singleObjectPath, getFailureResponse, isNotFoundErr]

theorem c2_get_error_mapping_witness :
    singleObjectPath "bar" (GetResult.failed (GetErr.otherErr "boom")) none =
      Except.error (500, "failed to get task: " ++ "boom") :=
  (c2_get_error_mapping "bar" "boom" 500 none).2

/-- Claim C3 counterexample: with limit=5000 the effective limit is the
default 500, not the claimed clamped value 1000. -/
theorem c3_limit_clamp_counterexample :
    effectiveLimit "5000" = 500 ∧ (500 : Int) ≠ 1000 :=
  ⟨by decide, by decide⟩

/-- Claim C3 as amended: a limit value that parses to an integer above
1000 is rejected by the range check and the effective limit falls back to
the default 500 (no clamping happens). -/
theorem c3_limit_above_max_defaults (s : String) (l : Int)
    (hp : parseInt64 s = some l) (hl : 1000 < l) :
    effectiveLimit s = 500 := by
  have hne : ¬ (0 < l ∧ l ≤ 1000) := by omega
  unfold effectiveLimit
  rw [hp]
  split
  · rfl
  · simp [hne]

theorem c3_limit_above_max_defaults_witness :
    parseInt64 "5000" = some 5000 ∧ (1000 : Int) < 5000 ∧
      effectiveLimit "5000" = 500 :=
  ⟨by decide, by decide,
    c3_limit_above_max_defaults "5000" 5000 (by decide) (by decide)⟩

/-- Claim C9 counterexample: a list-transform hook whose result is an
extractable object list with zero items drives the unwrap into the
unchecked items[0] access — the ok none value records that out-of-bounds
access (a Go runtime panic). -/
theorem c9_empty_hook_counterexample :
    singleObjectPath "bar" (GetResult.found "3" 7)
        (some (fun _ => Except.ok (HookResult.objList []))) = Except.ok none :=
  rfl

/-- Claim C9 as amended: the unchecked items[0] access is in bounds
exactly when the extractable hook result is non-empty; with no hook the
synthetic one-item list makes the access safe, and a hook returning a
non-empty extractable list yields its first element. -/
theorem c9_unwrap_in_bounds (nm rv : String) (x y : Nat) (ys : List Nat)
    (hook : List Nat → Except String HookResult)
    (hnm : nm ≠ "")
    (hres : hook [x] = Except.ok (HookResult.objList (y :: ys))) :
    singleObjectPath nm (GetResult.found rv x) (some hook) =
      Except.ok (some (ScalarOut.picked y)) ∧
    singleObjectPath nm (GetResult.found rv x) none =
      Except.ok (some (ScalarOut.picked x)) := by
  constructor
  · simp [singleObjectPath, singleObjectResult, hres, unwrapScalar, hnm]
  · simp [singleObjectPath, singleObjectResult, unwrapScalar, hnm]

theorem c9_unwrap_in_bounds_witness :
    ("bar" : String) ≠ "" ∧
    singleObjectPath "bar" (GetResult.found "3" 7)
        (some (fun l => Except.ok (HookResult.objList l))) =
      Except.ok (some (ScalarOut.picked 7)) :=
  ⟨by decide,
    (c9_unwrap_in_bounds "bar" "3" 7 7 []
      (fun l => Except.ok (HookResult.objList l)) (by decide) rfl).1⟩

/-- Claim C4: a List request whose limit query value is absent,
non-numeric, nonpositive, or greater than 1000 reaches the backing store
with the default limit 500; with parseable selectors the request is never
rejected on account of the limit (and with empty selectors the exact
backing options are determined). -/
theorem c4_limit_invalid_defaults (flushSupported : Bool)
    (labelOk fieldOk : String → Bool) (ns : String) (q : RequestQuery)
    (hw : equalFold q.watchRaw "true" = false)
    (hlim : q.limitRaw = "" ∨ parseInt64 q.limitRaw = none ∨
            ∃ l, parseInt64 q.limitRaw = some l ∧ (l ≤ 0 ∨ 1000 < l)) :
    (∀ opts, backingOpFor flushSupported labelOk fieldOk ns "" q =
        BackingOp.listOp opts → opts.limit = 500) ∧
    (q.labelSelectorRaw = "" → q.fieldSelectorRaw = "" →
      backingOpFor flushSupported labelOk fieldOk ns "" q =
        BackingOp.listOp
          { nspace := ns, limit := 500, continueToken := q.continueRaw,
            labelSel := none, fieldSel := none,
            rawResourceVersion := q.resourceVersionRaw,
            rawRVMatch := resolveRVMatch q.resourceVersionMatchRaw }) := by
  have hel : effectiveLimit q.limitRaw = 500 := by
    unfold effectiveLimit
    rcases hlim with h | h | ⟨l, hp, hrange⟩
    · rw [if_pos h]
    · split
      · rfl
      · rw [h]
    · split
      · rfl
      · rw [hp]
        have hne : ¬ (0 < l ∧ l ≤ 1000) := by omega
        simp [hne]
  constructor
  · intro opts heq
    unfold backingOpFor at heq
    rw [if_neg (by simp [hw])] at heq
    rw [if_neg (by simp)] at heq
    cases hbl : buildListOptions labelOk fieldOk ns q with
    | error e =>
      obtain ⟨c, m⟩ := e
      rw [hbl] at heq
      cases heq
    | ok o =>
      rw [hbl] at heq
      cases heq
      unfold buildListOptions at hbl
      split at hbl
      · cases hbl
      · split at hbl
        · cases hbl
        · cases hbl
          exact hel
  · intro hls hfs
    unfold backingOpFor
    rw [if_neg (by simp [hw])]
    rw [if_neg (by simp)]
    unfold buildListOptions
    rw [if_neg (by simp [hls])]
    rw [if_neg (by simp [hfs])]
    simp [hls, hfs, hel]

def c4SampleQuery : RequestQuery :=
  { watchRaw := "", limitRaw := "abc", continueRaw := "", labelSelectorRaw := "",
    fieldSelectorRaw := "", resourceVersionRaw := "", resourceVersionMatchRaw := "",
    allowWatchBookmarksRaw := "", sendInitialEventsRaw := "", timeoutSecondsRaw := "" }

theorem c4_limit_invalid_defaults_witness :
    equalFold "" "true" = false ∧ parseInt64 "abc" = none ∧
    backingOpFor false (fun _ => true) (fun _ => true) "ns1" "" c4SampleQuery =
      BackingOp.listOp
        { nspace := "ns1", limit := 500, continueToken := "",
          labelSel := none, fieldSel := none,
          rawResourceVersion := "", rawRVMatch := RVMatch.notOlderThan } :=
  ⟨by decide, by decide,
    (c4_limit_invalid_defaults false (fun _ => true) (fun _ => true) "ns1"
        c4SampleQuery (by decide) (Or.inr (Or.inl (by decide)))).2 rfl rfl⟩

/-- Claim C6: a watch request whose effective sendInitialEvents is true
and whose resourceVersionMatch resolves to Exact is rejected with 400 by
the negotiation, whatever the backing store would do — the backing watch
function is never consulted. -/
theorem c6_send_initial_exact_rejected (ns nm : String) (q : RequestQuery)
    (watchCb : Option (String → String → EventObject → Except String EventObject))
    (encodeFails : EncodedEvent → Bool)
    (backing : WatchListOptions → BackingWatchResult)
    (hsi : effectiveSendInitial q.resourceVersionRaw q.sendInitialEventsRaw = true)
    (hrvm : resolveRVMatch q.resourceVersionMatchRaw = RVMatch.exact) :
    watchPath true ns nm q watchCb encodeFails backing =
      WatchOutcome.preError 400
        "sendInitialEvents requires resourceVersionMatch=NotOlderThan" := by
  have hneg : watchNegotiate true q nm =
      Except.error (400, "sendInitialEvents requires resourceVersionMatch=NotOlderThan") := by
    unfold watchNegotiate
    rw [if_neg (by decide)]
    rw [if_pos ⟨hsi, by rw [hrvm]; decide⟩]
  unfold watchPath
  rw [hneg]

def c6SampleQuery : RequestQuery :=
  { watchRaw := "true", limitRaw := "", continueRaw := "", labelSelectorRaw := "",
    fieldSelectorRaw := "", resourceVersionRaw := "", resourceVersionMatchRaw := "Exact",
    allowWatchBookmarksRaw := "", sendInitialEventsRaw := "", timeoutSecondsRaw := "" }

theorem c6_send_initial_exact_rejected_witness :
    effectiveSendInitial "" "" = true ∧ resolveRVMatch "Exact" = RVMatch.exact ∧
    watchPath true "ns1" "" c6SampleQuery none (fun _ => false)
        (fun _ => BackingWatchResult.openedWith []) =
      WatchOutcome.preError 400
        "sendInitialEvents requires resourceVersionMatch=NotOlderThan" :=
  ⟨by decide, by decide,
    c6_send_initial_exact_rejected "ns1" "" c6SampleQuery none (fun _ => false)
      (fun _ => BackingWatchResult.openedWith []) (by decide) (by decide)⟩

lemma watchNegotiate_ok_fieldSelector (flushSupported : Bool) (q : RequestQuery)
    (nm : String) (opts : WatchListOptions)
    (hok : watchNegotiate flushSupported q nm = Except.ok opts) :
    opts.fieldSelector = watchFieldSelector nm q.fieldSelectorRaw := by
  unfold watchNegotiate at hok
  split at hok
  · cases hok
  · split at hok
    · cases hok
    · cases hok
      rfl

/-- Claim C7: a request with a non-empty path name is never dispatched as
a backing List, and when it is dispatched as a backing Watch the options
carry the forced exact-name field selector, whatever fieldSelector the
query supplied.  (A non-watch named request is a keyed Get, which takes no
field selector at all.) -/
theorem c7_name_forces_field_selector (flushSupported : Bool)
    (labelOk fieldOk : String → Bool) (ns nm : String) (q : RequestQuery)
    (h : nm ≠ "") :
    (∀ opts, backingOpFor flushSupported labelOk fieldOk ns nm q ≠
      BackingOp.listOp opts) ∧
    (∀ opts, backingOpFor flushSupported labelOk fieldOk ns nm q =
        BackingOp.watchOp opts →
      opts.fieldSelector = "metadata.name=" ++ nm) := by
  constructor
  · intro opts
    unfold backingOpFor
    by_cases hw : equalFold q.watchRaw "true" = true
    · rw [if_pos hw]
      cases hneg : watchNegotiate flushSupported q nm with
      | error e => obtain ⟨c, m⟩ := e; simp
      | ok o => simp
    · rw [if_neg hw, if_pos h]
      simp
  · intro opts heq
    unfold backingOpFor at heq
    by_cases hw : equalFold q.watchRaw "true" = true
    · rw [if_pos hw] at heq
      cases hneg : watchNegotiate flushSupported q nm with
      | error e =>
        obtain ⟨c, m⟩ := e
        rw [hneg] at heq
        cases heq
      | ok o =>
        rw [hneg] at heq
        have hfs := watchNegotiate_ok_fieldSelector flushSupported q nm o hneg
        cases heq
        rw [hfs]
        simp [watchFieldSelector, h]
    · rw [if_neg hw, if_pos h] at heq
      cases heq

def c7SampleQuery : RequestQuery :=
  { watchRaw := "true", limitRaw := "", continueRaw := "",
    labelSelectorRaw := "", fieldSelectorRaw := "metadata.labels.app=web",
    resourceVersionRaw := "", resourceVersionMatchRaw := "",
    allowWatchBookmarksRaw := "", sendInitialEventsRaw := "",
    timeoutSecondsRaw := "" }

def c7SampleOpts : WatchListOptions :=
  { resourceVersion := "", resourceVersionMatch := RVMatch.notOlderThan,
    timeoutSeconds := 60, sendInitialEvents := true, watch := true,
    allowWatchBookmarks := false, labelSelector := "",
    fieldSelector := "metadata.name=bar" }

theorem c7_name_forces_field_selector_witness :
    ("bar" : String) ≠ "" ∧
    backingOpFor true (fun _ => true) (fun _ => true) "ns1" "bar" c7SampleQuery =
      BackingOp.watchOp c7SampleOpts ∧
    c7SampleOpts.fieldSelector = "metadata.name=" ++ "bar" :=
  ⟨by decide, by decide,
    (c7_name_forces_field_selector true (fun _ => true) (fun _ => true) "ns1" "bar"
        c7SampleQuery (by decide)).2 c7SampleOpts (by decide)⟩

lemma muxRegisterAll_error_of_clash (ps : List String) :
    ∀ mux : List String, ((∃ x ∈ ps, x ∈ mux) ∨ ¬ ps.Nodup) →
      ∃ e, muxRegisterAll mux ps = Except.error e := by
  induction ps with
  | nil =>
    intro mux h
    rcases h with ⟨x, hx, _⟩ | hnd
    · exact absurd hx (List.not_mem_nil x)
    · exact absurd List.nodup_nil hnd
  | cons p ps ih =>
    intro mux h
    by_cases hp : p ∈ mux
    · refine ⟨"http: multiple registrations for " ++ p, ?_⟩
      simp [muxRegisterAll, muxRegister, hp]
    · have step : muxRegisterAll mux (p :: ps) = muxRegisterAll (mux ++ [p]) ps := by
        simp [muxRegisterAll, muxRegister, hp]
      rw [step]
      apply ih
      rcases h with ⟨x, hx, hxm⟩ | hnd
      · rcases List.mem_cons.mp hx with rfl | hx2
        · exact absurd hxm hp
        · exact Or.inl ⟨x, hx2, List.mem_append_left _ hxm⟩
      · rw [List.nodup_cons] at hnd
        push_neg at hnd
        by_cases hpps : p ∈ ps
        · exact Or.inl ⟨p, hpps, List.mem_append_right _ (List.mem_singleton_self p)⟩
        · exact Or.inr (hnd hpps)

lemma muxRegisterAll_ok_of_nodup (ps : List String) :
    ∀ mux : List String, (mux ++ ps).Nodup →
      muxRegisterAll mux ps = Except.ok (mux ++ ps) := by
  induction ps with
  | nil => intro mux _; simp [muxRegisterAll]
  | cons p ps ih =>
    intro mux h
    have hp : p ∉ mux := by
      rcases List.nodup_append.mp h with ⟨_, _, hdisj⟩
      intro hmem
      exact hdisj hmem (List.mem_cons_self p ps)
    have h2 : ((mux ++ [p]) ++ ps).Nodup := by
      rw [List.append_assoc, List.singleton_append]
      exact h
    have hrec := ih (mux ++ [p]) h2
    simp only [muxRegisterAll, muxRegister, if_neg hp]
    rw [hrec, List.append_assoc, List.singleton_append]

lemma registerKind_error_of_pattern_dup (g v : String) (st : BuildState)
    (ak : APIKindReg) (hdup : ¬ (kindPatterns g v ak).Nodup) :
    ∃ e, registerKind g v st ak = Except.error e := by
  by_cases hn : ak.apiResource.name ∈ st.seenNames
  · exact ⟨"APIResource must be unique: " ++ ak.apiResource.name,
      by simp [registerKind, hn]⟩
  · obtain ⟨e, he⟩ :=
      muxRegisterAll_error_of_clash (kindPatterns g v ak) st.mux (Or.inr hdup)
    exact ⟨e, by simp [registerKind, hn, he]⟩

lemma foldExcept_error_of_mem {σ α : Type} (f : σ → α → Except String σ)
    (a : α) (l : List α) (hmem : a ∈ l)
    (herr : ∀ st, ∃ e, f st a = Except.error e) :
    ∀ st, ∃ e, foldExcept f st l = Except.error e := by
  induction l with
  | nil => exact absurd hmem (List.not_mem_nil a)
  | cons b l ih =>
    intro st
    rcases List.mem_cons.mp hmem with rfl | hmem2
    · obtain ⟨e, he⟩ := herr st
      exact ⟨e, by simp [foldExcept, he]⟩
    · cases hf : f st b with
      | error e => exact ⟨e, by simp [foldExcept, hf]⟩
      | ok st2 =>
        obtain ⟨e, he⟩ := ih hmem2 st2
        exact ⟨e, by simp [foldExcept, hf, he]⟩

lemma foldExcept_append {σ α : Type} (f : σ → α → Except String σ)
    (xs ys : List α) :
    ∀ st, foldExcept f st (xs ++ ys) =
      match foldExcept f st xs with
      | Except.error e => Except.error e
      | Except.ok st2 => foldExcept f st2 ys := by
  induction xs with
  | nil => intro st; simp [foldExcept]
  | cons x xs ih =>
    intro st
    cases hf : f st x with
    | error e => simp [foldExcept, hf]
    | ok st2 => simp [foldExcept, hf, ih]

lemma ne_append_slash (s : String) : s ≠ s ++ "/" := by
  intro h
  have hd : s.data = s.data ++ "/".data := by
    calc s.data = (s ++ "/").data := by rw [← h]
    _ = s.data ++ "/".data := rfl
  have hl := congrArg List.length hd
  rw [List.length_append] at hl
  have hone : "/".data.length = 1 := rfl
  rw [hone] at hl
  omega

lemma count_kindBlock (g v : String) (ak : APIKindReg) :
    (kindBlock g v ak).count (basePattern g v ak) = 1 := by
  unfold kindBlock
  have hne : basePattern g v ak ++ "/" ≠ basePattern g v ak :=
    fun h => ne_append_slash (basePattern g v ak) h.symm
  split
  · simp
  · simp [List.count_cons, hne]

lemma count_flatten_replicate (n : Nat) (l : List String) (a : String) :
    ((List.replicate n l).flatten.count a) = n * l.count a := by
  induction n with
  | zero => simp
  | succ k ih =>
    rw [List.replicate_succ, List.flatten_cons, List.count_append, ih,
      Nat.succ_mul]
    exact Nat.add_comm _ _

lemma count_kindPatterns_base (g v : String) (ak : APIKindReg) :
    ak.resourcesCount + ak.customResourcesCount ≤
      (kindPatterns g v ak).count (basePattern g v ak) := by
  unfold kindPatterns
  rw [List.count_append, List.count_append, count_flatten_replicate,
    count_flatten_replicate, count_kindBlock, Nat.mul_one, Nat.mul_one]
  omega

lemma not_nodup_kindPatterns (g v : String) (ak : APIKindReg)
    (h : 2 ≤ ak.resourcesCount + ak.customResourcesCount) :
    ¬ (kindPatterns g v ak).Nodup := by
  intro hnd
  have hle := List.nodup_iff_count_le_one.mp hnd (basePattern g v ak)
  have hge := count_kindPatterns_base g v ak
  omega

/-- Claim C10: with all resource names unique, an APIKind carrying two
Resources entries, or both a Resources and a CustomResources entry,
registers its collection route pattern twice, so ServeMux panics and
construction aborts (the error outcome of the model). -/
theorem c10_duplicate_route_abort (g v : String) (kinds : List APIKindReg)
    (ak : APIKindReg) (hmem : ak ∈ kinds)
    (hnames : (kinds.map (fun k => k.apiResource.name)).Nodup)
    (hdup : 2 ≤ ak.resourcesCount ∨
            (1 ≤ ak.resourcesCount ∧ 1 ≤ ak.customResourcesCount)) :
    isConstructionError (NewServer g v kinds) = true := by
  have hsum : 2 ≤ ak.resourcesCount + ak.customResourcesCount := by omega
  have hkp := not_nodup_kindPatterns g v ak hsum
  have herr : ∀ st, ∃ e, registerKind g v st ak = Except.error e :=
    fun st => registerKind_error_of_pattern_dup g v st ak hkp
  unfold NewServer
  cases hb : muxRegisterAll [] bootPatterns with
  | error e => rfl
  | ok m0 =>
    obtain ⟨e, he⟩ :=
      foldExcept_error_of_mem (registerKind g v) ak kinds hmem herr ⟨[], m0, false⟩
    simp [he, isConstructionError]

def c10MultiEntryKinds : List APIKindReg :=
  [{ apiResource := { name := "widgets", namespaced := true },
     rawEndpoints := [], resourcesCount := 1, customResourcesCount := 1 }]

theorem c10_duplicate_route_abort_witness :
    ((c10MultiEntryKinds.map (fun k => k.apiResource.name)).Nodup) ∧
    isConstructionError (NewServer "example.com" "v1" c10MultiEntryKinds) = true :=
  ⟨by decide,
    c10_duplicate_route_abort "example.com" "v1" c10MultiEntryKinds
      { apiResource := { name := "widgets", namespaced := true },
        rawEndpoints := [], resourcesCount := 1, customResourcesCount := 1 }
      (by decide) (by decide) (Or.inr ⟨by decide, by decide⟩)⟩

lemma registerKind_ok_fields (g v : String) (st : BuildState) (ak : APIKindReg)
    (hname : ak.apiResource.name ∉ st.seenNames)
    (hmux : muxRegisterAll st.mux (kindPatterns g v ak) =
      Except.ok (st.mux ++ kindPatterns g v ak)) :
    registerKind g v st ak = Except.ok
      { seenNames := st.seenNames ++ [ak.apiResource.name],
        mux := st.mux ++ kindPatterns g v ak,
        hasNamespacedHandlers := st.hasNamespacedHandlers ||
          (ak.apiResource.namespaced &&
            decide (0 < ak.resourcesCount + ak.customResourcesCount)) } := by
  unfold registerKind
  rw [if_neg hname, hmux]

lemma foldReg_error_of_dup_names (g v : String) (kinds : List APIKindReg) :
    ∀ st : BuildState, st.seenNames.Nodup →
      ¬ ((st.seenNames ++ kinds.map (fun k => k.apiResource.name)).Nodup) →
      ∃ e, foldExcept (registerKind g v) st kinds = Except.error e := by
  induction kinds with
  | nil =>
    intro st hnd hdup
    rw [List.map_nil, List.append_nil] at hdup
    exact absurd hnd hdup
  | cons k ks ih =>
    intro st hnd hdup
    cases hreg : registerKind g v st k with
    | error e => exact ⟨e, by simp [foldExcept, hreg]⟩
    | ok st2 =>
      have hfields : st2.seenNames = st.seenNames ++ [k.apiResource.name] ∧
          k.apiResource.name ∉ st.seenNames := by
        unfold registerKind at hreg
        split at hreg
        · cases hreg
        · next hk =>
          split at hreg
          · cases hreg
          · cases hreg
            exact ⟨rfl, hk⟩
      have hstep : foldExcept (registerKind g v) st (k :: ks) =
          foldExcept (registerKind g v) st2 ks := by
        simp [foldExcept, hreg]
      rw [hstep]
      apply ih st2
      · rw [hfields.1]
        refine List.nodup_append.mpr ⟨hnd, List.nodup_singleton _, ?_⟩
        intro a ha hb
        rw [List.mem_singleton] at hb
        subst hb
        exact hfields.2 ha
      · rw [hfields.1, List.append_assoc, List.singleton_append]
        simpa using hdup

lemma foldReg_ok_clean (g v : String) (pfx : List APIKindReg) :
    ∀ st : BuildState,
      ((st.seenNames ++ pfx.map (fun k => k.apiResource.name)).Nodup) →
      ((st.mux ++ (pfx.map (kindPatterns g v)).flatten).Nodup) →
      ∃ b : Bool, foldExcept (registerKind g v) st pfx =
        Except.ok ⟨st.seenNames ++ pfx.map (fun k => k.apiResource.name),
                   st.mux ++ (pfx.map (kindPatterns g v)).flatten, b⟩ := by
  induction pfx with
  | nil =>
    intro st h1 h2
    exact ⟨st.hasNamespacedHandlers, by simp [foldExcept]⟩
  | cons k ks ih =>
    intro st h1 h2
    have hkname : k.apiResource.name ∉ st.seenNames := by
      rcases List.nodup_append.mp h1 with ⟨_, _, hdisj⟩
      intro hmem
      exact hdisj hmem (by simp)
    have h2a : (st.mux ++ (kindPatterns g v k ++
        (ks.map (kindPatterns g v)).flatten)).Nodup := by
      simpa using h2
    have h2b : ((st.mux ++ kindPatterns g v k) ++
        (ks.map (kindPatterns g v)).flatten).Nodup := by
      rw [List.append_assoc]
      exact h2a
    have hmux : muxRegisterAll st.mux (kindPatterns g v k) =
        Except.ok (st.mux ++ kindPatterns g v k) :=
      muxRegisterAll_ok_of_nodup _ _ (List.Nodup.of_append_left h2b)
    have hreg := registerKind_ok_fields g v st k hkname hmux
    have h1b : (((st.seenNames ++ [k.apiResource.name]) ++
        ks.map (fun k => k.apiResource.name)).Nodup) := by
      rw [List.append_assoc, List.singleton_append]
      simpa using h1
    obtain ⟨b, hb⟩ := ih
      { seenNames := st.seenNames ++ [k.apiResource.name],
        mux := st.mux ++ kindPatterns g v k,
        hasNamespacedHandlers := st.hasNamespacedHandlers ||
          (k.apiResource.namespaced &&
            decide (0 < k.resourcesCount + k.customResourcesCount)) }
      h1b h2b
    refine ⟨b, ?_⟩
    have hstep : foldExcept (registerKind g v) st (k :: ks) =
        foldExcept (registerKind g v)
          { seenNames := st.seenNames ++ [k.apiResource.name],
            mux := st.mux ++ kindPatterns g v k,
            hasNamespacedHandlers := st.hasNamespacedHandlers ||
              (k.apiResource.namespaced &&
                decide (0 < k.resourcesCount + k.customResourcesCount)) } ks := by
      simp [foldExcept, hreg]
    rw [hstep, hb]
    simp [List.append_assoc]

def c8CornerKinds : List APIKindReg :=
  [{ apiResource := { name := "a", namespaced := false },
     rawEndpoints := [], resourcesCount := 2, customResourcesCount := 0 },
   { apiResource := { name := "b", namespaced := false },
     rawEndpoints := [], resourcesCount := 1, customResourcesCount := 0 },
   { apiResource := { name := "b", namespaced := false },
     rawEndpoints := [], resourcesCount := 1, customResourcesCount := 0 }]

/-- Claim C8 counterexample: a configuration whose third and second
descriptors share the name b, but whose first descriptor carries two
Resources entries, aborts on the duplicate route pattern of the first
descriptor — construction does fail, but the error is the mux
registration panic, not a message identifying the duplicate name b. -/
theorem c8_duplicate_name_counterexample :
    ¬ ((c8CornerKinds.map (fun k => k.apiResource.name)).Nodup) ∧
    NewServer "example.com" "v1" c8CornerKinds =
      Except.error "http: multiple registrations for /apis/example.com/v1/a" ∧
    ("http: multiple registrations for /apis/example.com/v1/a" ≠
      "APIResource must be unique: b") := by
  refine ⟨by decide, rfl, by decide⟩

/-- Claim C8 as amended: every configuration with a duplicate resource
name fails construction (no route table is produced); and when no
duplicate route pattern aborts registration before the loop reaches the
first duplicated name, the construction error identifies that name. -/
theorem c8_duplicate_name_fails (g v : String) (kinds : List APIKindReg)
    (hdup : ¬ ((kinds.map (fun k => k.apiResource.name)).Nodup)) :
    isConstructionError (NewServer g v kinds) = true ∧
    (∀ pfx ak rest, kinds = pfx ++ ak :: rest →
      ((pfx.map (fun k => k.apiResource.name)).Nodup) →
      ak.apiResource.name ∈ pfx.map (fun k => k.apiResource.name) →
      ((bootPatterns ++ (pfx.map (kindPatterns g v)).flatten).Nodup) →
      NewServer g v kinds =
        Except.error ("APIResource must be unique: " ++ ak.apiResource.name)) := by
  constructor
  · unfold NewServer
    cases hb : muxRegisterAll [] bootPatterns with
    | error e => rfl
    | ok m0 =>
      obtain ⟨e, he⟩ := foldReg_error_of_dup_names g v kinds ⟨[], m0, false⟩
        (by simp) (by simpa using hdup)
      simp [he, isConstructionError]
  · intro pfx ak rest hkinds hpfx hmem hpat
    subst hkinds
    have hboot : muxRegisterAll [] bootPatterns = Except.ok bootPatterns := by
      have := muxRegisterAll_ok_of_nodup bootPatterns []
        (by simpa using List.Nodup.of_append_left hpat)
      simpa using this
    obtain ⟨b, hfold⟩ := foldReg_ok_clean g v pfx ⟨[], bootPatterns, false⟩
      (by simpa using hpfx) (by simpa using hpat)
    have hmem2 : ak.apiResource.name ∈
        ([] : List String) ++ pfx.map (fun k => k.apiResource.name) := by
      simpa using hmem
    have happ : foldExcept (registerKind g v) ⟨[], bootPatterns, false⟩
        (pfx ++ ak :: rest) =
        Except.error ("APIResource must be unique: " ++ ak.apiResource.name) := by
      rw [foldExcept_append, hfold]
      have hmem3 : ∃ a ∈ pfx, a.apiResource.name = ak.apiResource.name := by
        simpa using hmem
      simp [foldExcept, registerKind, hmem3]
    unfold NewServer
    rw [hboot]
    simp [happ]

def c8TwoFooKinds : List APIKindReg :=
  [{ apiResource := { name := "foo", namespaced := false },
     rawEndpoints := [], resourcesCount := 1, customResourcesCount := 0 },
   { apiResource := { name := "foo", namespaced := false },
     rawEndpoints := [], resourcesCount := 1, customResourcesCount := 0 }]

theorem c8_duplicate_name_fails_witness :
    isConstructionError (NewServer "example.com" "v1" c8TwoFooKinds) = true ∧
    NewServer "example.com" "v1" c8TwoFooKinds =
      Except.error ("APIResource must be unique: " ++ "foo") := by
  have h := c8_duplicate_name_fails "example.com" "v1" c8TwoFooKinds (by decide)
  refine ⟨h.1, ?_⟩
  exact h.2
    [{ apiResource := { name := "foo", namespaced := false },
       rawEndpoints := [], resourcesCount := 1, customResourcesCount := 0 }]
    { apiResource := { name := "foo", namespaced := false },
      rawEndpoints := [], resourcesCount := 1, customResourcesCount := 0 }
    [] rfl (by decide) (by decide) (by decide)

end AggregationModel
